import Mathlib

/-!
Verification of the Talknaw auth-service route handlers
(`app/api/user/views.py`) and the example schemas
(`app/api/example/schemas.py`).

The handlers are thin orchestration over external collaborators
(`UserService`, `OTPGenerator`, the mail/background dispatcher, JWT
helpers).  We embed the collaborators as a record of functions `Env`
and each route handler as a pure Lean function over an `Env`, returning
the HTTP response together with an explicit trace of the side effects it
requested (OTP generations, scheduled mail tasks, password-reset calls,
social-propagation calls).  A `UserService` call that raises `NotFound`
is modelled by `Option`/`Except.error`.
-/

set_option linter.unusedVariables false

namespace Talknaw

/-- User identifiers (UUIDs in the source) are modelled as naturals. -/
abbrev UserId := Nat

/-- The user record returned by `UserService.find_by_email`; the handlers
only ever read its `id` attribute. -/
structure UserRec where
  id : UserId
deriving DecidableEq, Repr

/-- The `MessageProfile` response schema: `{detail, status}`. -/
structure MessageProfile where
  detail : String
  status : Bool
deriving DecidableEq, Repr

/-- The `OTPVerify` request schema: `{email, otp}`. -/
structure OTPVerify where
  email : String
  otp : String
deriving DecidableEq, Repr

/-- The `ResetPassword` request schema: a `{token, new_password}` pair. -/
structure ResetPassword where
  token : String
  new_password : String
deriving DecidableEq, Repr

/-- The `UsernameChange` request schema. -/
structure UsernameChange where
  new_username : String
deriving DecidableEq, Repr

/-- The `UserTokenProfile` shape returned by the token-refresh handler. -/
structure UserTokenProfile where
  user_id : UserId
  access_token : String
  refresh_token : String
deriving DecidableEq, Repr

/-- Python is dynamically typed, so the `subject` argument handed to
`send_mail` can be a plain string (`"OTP"`) or, as in `verify_email`,
the one-element tuple `("Forgot Password",)`.  We keep the distinction. -/
inductive MailSubject where
  | str : String → MailSubject
  | tuple1 : String → MailSubject
deriving DecidableEq, Repr

/-- One scheduled `send_mail` background task, with the keyword
arguments it was scheduled with. -/
structure MailTask where
  subject : MailSubject
  message : String
  recipient_list : List String
deriving DecidableEq, Repr

/-- One item yielded by `UserService.update_username`: a dict with
`user_id` and `username` keys. -/
structure UpdateItem where
  user_id : UserId
  username : String
deriving DecidableEq, Repr

/-- The external collaborators the handlers delegate to.
`find_by_email` returning `none` models `UserService.find_by_email`
raising `NotFound`; `refreshJWT` returning `none` models an
authentication error on an invalid refresh token.  `mail_outcome`
models the result of the background dispatcher actually executing a
scheduled mail task; the handlers never consult it. -/
structure Env where
  find_by_email : String → Option UserRec
  get_otp : UserId → String
  check_otp : UserId → String → String × Bool
  password_reset : String → ResetPassword → MessageProfile
  forgot_password : String → MessageProfile
  refreshJWT : String → Option String
  decode_token : String → UserId
  update_username : UserId → String → List UpdateItem
  mail_outcome : MailTask → Bool

/-- Output of the two OTP-issuance handlers: the HTTP response
(`Except.error ()` = `NotFound` propagated to the framework), the list
of user ids for which `OTPGenerator.get_otp` was invoked, and the list
of mail tasks handed to `background_tasks.add_task`. -/
structure IssueOut where
  resp : Except Unit MessageProfile
  otp_calls : List UserId
  mail_tasks : List MailTask
deriving Repr

/-- Output of the reset-password handler: the HTTP response and the
list of `UserService.password_reset(email, password)` invocations. -/
structure ResetOut where
  resp : Except Unit MessageProfile
  reset_calls : List (String × ResetPassword)
deriving Repr

/-- Output of the username-update handler: the HTTP response and the
ordered list of `update_username_in_social(user_id, username)` calls. -/
structure SocialOut where
  resp : MessageProfile
  social_calls : List (UserId × String)
deriving DecidableEq, Repr

/-- `GET /otp/send/{email}` (handler `get_otp` in `views.py`): resolve
the email, ask the OTP generator for a code, schedule `send_mail` with
subject `"OTP"` and the code in the body, and answer with a constant
success message. -/
def get_otp (env : Env) (email : String) : IssueOut :=
  match env.find_by_email email with
  | none => ⟨.error (), [], []⟩
  | some user =>
    let otp := env.get_otp user.id
    let subject := "OTP"
    let message := "Complete your verification process with this OTP: " ++ otp
    ⟨.ok ⟨"OTP has been sent to your email", true⟩,
     [user.id],
     [⟨.str subject, message, [email]⟩]⟩

/-- `POST /otp/verify` (handler `verify_otp`): resolve the email, run
`OTPGenerator.check_otp`, and return the `(message, status)` pair as
`{detail, status}`. -/
def verify_otp (env : Env) (otp_data : OTPVerify) : Except Unit MessageProfile :=
  match env.find_by_email otp_data.email with
  | none => .error ()
  | some user =>
    let r := env.check_otp user.id otp_data.otp
    .ok ⟨r.1, r.2⟩

/-- `POST /reset_password/{email}` (handler `reset_password`): resolve
the email, check the submitted token; on a false flag return the
`(message, status)` pair, otherwise delegate to
`UserService.password_reset(email, password)`. -/
def reset_password (env : Env) (email : String) (password : ResetPassword) :
    ResetOut :=
  match env.find_by_email email with
  | none => ⟨.error (), []⟩
  | some user =>
    let r := env.check_otp user.id password.token
    if !r.2 then ⟨.ok ⟨r.1, r.2⟩, []⟩
    else ⟨.ok (env.password_reset email password), [(email, password)]⟩

/-- `POST /refresh_token` (handler `refresh_token`): exchange the
refresh token for a new access token via `refreshJWT`, decode the new
access token to a user id, and echo the refresh token back unchanged. -/
def refresh_token (env : Env) (rt : String) : Except Unit UserTokenProfile :=
  match env.refreshJWT rt with
  | none => .error ()
  | some access_token =>
    let user_id := env.decode_token access_token
    .ok ⟨user_id, access_token, rt⟩

/-- The `async for` loop body of the `update_username` handler: walk
the items yielded by the service's update sequence in order, calling
`update_username_in_social(item.user_id, item.username)` for each and
recording the calls in order. -/
def social_loop : List UpdateItem → List (UserId × String)
  | [] => []
  | item :: rest => (item.user_id, item.username) :: social_loop rest

/-- `PATCH /change/username` (handler `update_username`): iterate the
async generator `UserService.update_username`, awaiting
`update_username_in_social(item.user_id, item.username)` for each item
in order, then return the success message. -/
def update_username (env : Env) (user_id : UserId) (user_data : UsernameChange) :
    SocialOut :=
  let items := env.update_username user_id user_data.new_username
  ⟨⟨"Username updated to " ++ user_data.new_username, true⟩,
   social_loop items⟩

/-- `GET /forgot_password/{email}` (handler `verify_email`): resolve
the email, get a fresh OTP, schedule `send_mail` with the one-element
tuple subject `("Forgot Password",)` and a body that is first bound to
a multi-line string and then immediately reassigned to a single line,
and return `UserService.forgot_password(email)`. -/
def verify_email (env : Env) (email : String) : IssueOut :=
  match env.find_by_email email with
  | none => ⟨.error (), [], []⟩
  | some user =>
    let otp := env.get_otp user.id
    let subject := MailSubject.tuple1 "Forgot Password"
    let message := "\n        You requested to reset your password.\n        Complete the process with this token: " ++ otp ++ "\n\n        "
    let message := "Complete the process with this token: " ++ otp
    ⟨.ok (env.forgot_password email),
     [user.id],
     [⟨subject, message, [email]⟩]⟩

/-- Replace only the `mail_outcome` collaborator of an environment,
leaving every other collaborator untouched. -/
def Env.set_mail_outcome (e : Env) (o : MailTask → Bool) : Env :=
  ⟨e.find_by_email, e.get_otp, e.check_otp, e.password_reset,
   e.forgot_password, e.refreshJWT, e.decode_token, e.update_username, o⟩

/-! ### Example schemas (`app/api/example/schemas.py`) -/

/-- `ExampleCreateSchema`: `{id: Optional[UUID] = None, name: str,
active: bool}`, with `from_attributes = True` in its config. -/
structure ExampleCreateSchema where
  id : Option UserId := none
  name : String
  active : Bool
deriving DecidableEq, Repr

/-- `ExampleSchema`: `ExampleCreateSchema` plus the two optional
timestamps `created_at` and `updated_at` (datetimes modelled as
naturals). -/
structure ExampleSchema extends ExampleCreateSchema where
  created_at : Option Nat
  updated_at : Option Nat
deriving DecidableEq, Repr

/-- Modelled from the spec: the persisted entity (not part of this
repository) whose attributes populate `ExampleSchema`; it carries
exactly the attributes the schema reads. -/
structure ExampleEntity where
  id : Option UserId
  name : String
  active : Bool
  created_at : Option Nat
  updated_at : Option Nat
deriving DecidableEq, Repr

/-- Attribute-based construction enabled by `from_attributes = True`:
build an `ExampleSchema` by reading each field off a persisted
entity's attributes rather than from a dictionary. -/
def ExampleSchema.from_attributes (e : ExampleEntity) : ExampleSchema :=
  ⟨⟨e.id, e.name, e.active⟩, e.created_at, e.updated_at⟩

/-! ### Concrete environments used to instantiate the theorems -/

/-- A concrete environment: every email except `"none@x.com"` resolves
to the user with id 1; the correct OTP is `"654321"`. -/
def envW : Env :=
  ⟨fun e => if e = "none@x.com" then none else some ⟨1⟩,
   fun _ => "123456",
   fun _ t => if t = "654321" then ("OTP verified", true) else ("Invalid OTP", false),
   fun _ _ => ⟨"Password reset successful", true⟩,
   fun _ => ⟨"Reset token sent", true⟩,
   fun r => if r = "bad" then none else some ("access-" ++ r),
   fun t => t.length,
   fun uid un => [⟨uid, un⟩],
   fun _ => true⟩

/-- `envW` with a different OTP generator (it produces `"999999"`
instead of `"123456"`) but the same user lookup. -/
def envW2 : Env :=
  ⟨envW.find_by_email,
   fun _ => "999999",
   envW.check_otp, envW.password_reset, envW.forgot_password,
   envW.refreshJWT, envW.decode_token, envW.update_username,
   envW.mail_outcome⟩

/-! ### Claim theorems -/

/-- C1: `reset_password` first checks the token via `check_otp`; on a
false flag it returns that `(message, flag)` pair and never invokes
`UserService.password_reset` (no password-mutation call in the trace);
on a true flag it delegates to `password_reset(email, password)` and
returns its result. -/
theorem c1_reset_password_short_circuits (env : Env) (email : String)
    (password : ResetPassword) (user : UserRec)
    (hfind : env.find_by_email email = some user) :
    ((env.check_otp user.id password.token).2 = false →
      reset_password env email password =
        ⟨.ok ⟨(env.check_otp user.id password.token).1, false⟩, []⟩) ∧
    ((env.check_otp user.id password.token).2 = true →
      reset_password env email password =
        ⟨.ok (env.password_reset email password), [(email, password)]⟩) := by
  constructor <;> intro h <;> simp [reset_password, hfind, h]

/-- Witness for C1: in `envW` the token `"000000"` fails, so
`reset_password` returns the failure pair and records no
`password_reset` call. -/
theorem c1_reset_password_short_circuits_witness :
    envW.find_by_email "a@b.com" = some ⟨1⟩ ∧
    (envW.check_otp 1 "000000").2 = false ∧
    reset_password envW "a@b.com" ⟨"000000", "newpw"⟩ =
      ⟨.ok ⟨"Invalid OTP", false⟩, []⟩ :=
  ⟨by decide, by decide,
   (c1_reset_password_short_circuits envW "a@b.com" ⟨"000000", "newpw"⟩ ⟨1⟩
     (by decide)).1 (by decide)⟩

/-- C2: whenever `refreshJWT` succeeds on the input refresh token, the
`refresh_token` handler returns `{user_id, access_token,
refresh_token}` where `refresh_token` is exactly the input string (no
rotation) and `user_id` is decoded from the newly issued access
token. -/
theorem c2_refresh_token_echoes_input (env : Env) (rt a : String)
    (h : env.refreshJWT rt = some a) :
    refresh_token env rt = .ok ⟨env.decode_token a, a, rt⟩ := by
  simp [refresh_token, h]

/-- Witness for C2: input `"R1"` is echoed back unchanged and the user
id comes from decoding the new access token `"access-R1"`. -/
theorem c2_refresh_token_echoes_input_witness :
    envW.refreshJWT "R1" = some "access-R1" ∧
    refresh_token envW "R1" = .ok ⟨9, "access-R1", "R1"⟩ :=
  ⟨by decide, c2_refresh_token_echoes_input envW "R1" "access-R1" (by decide)⟩

/-- C3: for an email that does not resolve to a user, both OTP-issuance
handlers (`get_otp`, i.e. `GET /otp/send/{email}`, and `verify_email`,
i.e. `GET /forgot_password/{email}`) fail with `NotFound` with no
`get_otp` call on the OTP generator and no scheduled mail task. -/
theorem c3_unknown_email_no_side_effects (env : Env) (email : String)
    (h : env.find_by_email email = none) :
    get_otp env email = ⟨.error (), [], []⟩ ∧
    verify_email env email = ⟨.error (), [], []⟩ := by
  constructor <;> simp [get_otp, verify_email, h]

/-- Witness for C3: `"none@x.com"` resolves to no user in `envW`. -/
theorem c3_unknown_email_no_side_effects_witness :
    envW.find_by_email "none@x.com" = none ∧
    get_otp envW "none@x.com" = ⟨.error (), [], []⟩ ∧
    verify_email envW "none@x.com" = ⟨.error (), [], []⟩ :=
  ⟨by decide,
   (c3_unknown_email_no_side_effects envW "none@x.com" (by decide)).1,
   (c3_unknown_email_no_side_effects envW "none@x.com" (by decide)).2⟩

/-- C4: `verify_otp` resolves the email (failing with `NotFound` when
no user exists), delegates to `check_otp` with the user id and the
candidate code, and returns the resulting pair as `{detail, status}`;
when the user resolves it always returns normally (never raises), so a
code mismatch is reported as `status = false`, a correct code as
`status = true`. -/
theorem c4_verify_otp_delegates (env : Env) (otp_data : OTPVerify) :
    (env.find_by_email otp_data.email = none →
      verify_otp env otp_data = .error ()) ∧
    (∀ user, env.find_by_email otp_data.email = some user →
      verify_otp env otp_data =
        .ok ⟨(env.check_otp user.id otp_data.otp).1,
             (env.check_otp user.id otp_data.otp).2⟩) := by
  constructor
  · intro h; simp [verify_otp, h]
  · intro user h; simp [verify_otp, h]

/-- Witness for C4: in `envW` the correct code yields `status = true`,
a wrong code yields `status = false`, both returned normally. -/
theorem c4_verify_otp_delegates_witness :
    envW.find_by_email "a@b.com" = some ⟨1⟩ ∧
    verify_otp envW ⟨"a@b.com", "654321"⟩ = .ok ⟨"OTP verified", true⟩ ∧
    verify_otp envW ⟨"a@b.com", "000000"⟩ = .ok ⟨"Invalid OTP", false⟩ :=
  ⟨by decide,
   (c4_verify_otp_delegates envW ⟨"a@b.com", "654321"⟩).2 ⟨1⟩ (by decide),
   (c4_verify_otp_delegates envW ⟨"a@b.com", "000000"⟩).2 ⟨1⟩ (by decide)⟩

/-- C5: `update_username` performs one `update_username_in_social`
call per item yielded by the service's update sequence, with that
item's `user_id` and `username`, in sequence order (zero items means
zero calls), and in every case returns the success message
`{detail: "Username updated to <new_username>", status: true}`. -/
theorem c5_update_username_propagates (env : Env) (user_id : UserId)
    (user_data : UsernameChange) :
    update_username env user_id user_data =
      ⟨⟨"Username updated to " ++ user_data.new_username, true⟩,
       (env.update_username user_id user_data.new_username).map
         (fun item => (item.user_id, item.username))⟩ := by
  have hloop : ∀ items : List UpdateItem,
      social_loop items = items.map (fun item => (item.user_id, item.username)) := by
    intro items
    induction items with
    | nil => rfl
    | cons item rest ih => simp [social_loop, ih]
  simp [update_username, hloop]

/-- C6: the token-checking prefix of `reset_password` is the same
computation as `verify_otp`: for every environment, email and password
payload, if `verify_otp` fails with `NotFound` so does
`reset_password`; if `verify_otp` returns a body `mp` with
`mp.status = false`, `reset_password` returns exactly `mp` with no
`password_reset` call; and if `mp.status = true` it delegates to
`password_reset`. -/
theorem c6_reset_prefix_equals_verify_otp (env : Env) (email : String)
    (password : ResetPassword) :
    (verify_otp env ⟨email, password.token⟩ = .error () →
      reset_password env email password = ⟨.error (), []⟩) ∧
    (∀ mp, verify_otp env ⟨email, password.token⟩ = .ok mp →
      (mp.status = false → reset_password env email password = ⟨.ok mp, []⟩) ∧
      (mp.status = true →
        reset_password env email password =
          ⟨.ok (env.password_reset email password), [(email, password)]⟩)) := by
  cases hfind : env.find_by_email email with
  | none =>
    constructor
    · intro _; simp [reset_password, hfind]
    · intro mp hmp; simp [verify_otp, hfind] at hmp
  | some user =>
    constructor
    · intro h; simp [verify_otp, hfind] at h
    · intro mp hmp
      simp [verify_otp, hfind] at hmp
      constructor <;> intro hst <;>
        simp [reset_password, hfind, ← hmp, hst] at hst ⊢ <;>
        simp [hst]

/-- Witness for C6: for the failing token `"000000"` the body that
`verify_otp` reports is exactly what `reset_password` short-circuits
with. -/
theorem c6_reset_prefix_equals_verify_otp_witness :
    verify_otp envW ⟨"a@b.com", "000000"⟩ = .ok ⟨"Invalid OTP", false⟩ ∧
    reset_password envW "a@b.com" ⟨"000000", "newpw"⟩ =
      ⟨.ok ⟨"Invalid OTP", false⟩, []⟩ :=
  ⟨rfl,
   ((c6_reset_prefix_equals_verify_otp envW "a@b.com" ⟨"000000", "newpw"⟩).2
     ⟨"Invalid OTP", false⟩ rfl).1 rfl⟩

/-- C7: `get_otp` only schedules the `send_mail` work as a background
task and never awaits it: its entire output (response included) is
invariant under any change of the mail-execution outcome, and for a
resolvable email the response is produced while the mail work sits in
the scheduled-task list. -/
theorem c7_mail_never_awaited (env : Env) (o₁ o₂ : MailTask → Bool)
    (email : String) (user : UserRec)
    (hfind : env.find_by_email email = some user) :
    get_otp (env.set_mail_outcome o₁) email
      = get_otp (env.set_mail_outcome o₂) email ∧
    (get_otp env email).resp = .ok ⟨"OTP has been sent to your email", true⟩ ∧
    (get_otp env email).mail_tasks =
      [⟨.str "OTP",
        "Complete your verification process with this OTP: " ++ env.get_otp user.id,
        [email]⟩] := by
  refine ⟨rfl, ?_, ?_⟩ <;> simp [get_otp, hfind]

/-- Witness for C7: two runs of `get_otp` under opposite mail outcomes
coincide, and the mail task is merely scheduled. -/
theorem c7_mail_never_awaited_witness :
    get_otp (envW.set_mail_outcome fun _ => true) "a@b.com"
      = get_otp (envW.set_mail_outcome fun _ => false) "a@b.com" ∧
    (get_otp envW "a@b.com").resp =
      .ok ⟨"OTP has been sent to your email", true⟩ ∧
    (get_otp envW "a@b.com").mail_tasks =
      [⟨.str "OTP",
        "Complete your verification process with this OTP: 123456",
        ["a@b.com"]⟩] :=
  c7_mail_never_awaited envW (fun _ => true) (fun _ => false) "a@b.com" ⟨1⟩
    (by decide)

/-- C8: `ExampleSchema` consists of exactly the `ExampleCreateSchema`
fields `{id, name, active}` plus the two optional timestamps
`created_at` and `updated_at` (each may be `none`), and it supports
attribute-based construction from a persisted entity, each field read
off the entity's attribute of the same name. -/
theorem c8_example_schema_shape :
    (∀ e : ExampleEntity,
      (ExampleSchema.from_attributes e).id = e.id ∧
      (ExampleSchema.from_attributes e).name = e.name ∧
      (ExampleSchema.from_attributes e).active = e.active ∧
      (ExampleSchema.from_attributes e).created_at = e.created_at ∧
      (ExampleSchema.from_attributes e).updated_at = e.updated_at) ∧
    (∀ s : ExampleSchema,
      s = ⟨⟨s.id, s.name, s.active⟩, s.created_at, s.updated_at⟩) ∧
    (∀ (n : String) (a : Bool), ∃ s : ExampleSchema,
      s.id = none ∧ s.created_at = none ∧ s.updated_at = none ∧
      s.name = n ∧ s.active = a) :=
  ⟨fun _ => ⟨rfl, rfl, rfl, rfl, rfl⟩,
   fun _ => rfl,
   fun n a => ⟨⟨⟨none, n, a⟩, none, none⟩, rfl, rfl, rfl, rfl, rfl⟩⟩

/-- C9: for a resolvable email, the mail task scheduled by
`verify_email` carries the one-element tuple subject
`("Forgot Password",)` (not a plain string), the single-line body
`"Complete the process with this token: <otp>"` (the multi-line body
having been discarded by reassignment), and exactly the requesting
email as recipient list. -/
theorem c9_forgot_password_mail_contents (env : Env) (email : String)
    (user : UserRec) (hfind : env.find_by_email email = some user) :
    (verify_email env email).mail_tasks =
      [⟨.tuple1 "Forgot Password",
        "Complete the process with this token: " ++ env.get_otp user.id,
        [email]⟩] := by
  simp [verify_email, hfind]

/-- Witness for C9: the concrete scheduled task for `"a@b.com"`. -/
theorem c9_forgot_password_mail_contents_witness :
    (verify_email envW "a@b.com").mail_tasks =
      [⟨.tuple1 "Forgot Password",
        "Complete the process with this token: 123456",
        ["a@b.com"]⟩] :=
  c9_forgot_password_mail_contents envW "a@b.com" ⟨1⟩ (by decide)

/-- C10: the response body of `get_otp` never depends on the generated
OTP value (or any collaborator other than user lookup): two
environments agreeing on `find_by_email` produce identical response
bodies, and for a resolvable email that body is the constant success
message. -/
theorem c10_response_independent_of_otp (env₁ env₂ : Env) (email : String)
    (hfind : env₁.find_by_email = env₂.find_by_email) :
    (get_otp env₁ email).resp = (get_otp env₂ email).resp ∧
    (∀ user, env₁.find_by_email email = some user →
      (get_otp env₁ email).resp =
        .ok ⟨"OTP has been sent to your email", true⟩) := by
  constructor
  · cases h : env₁.find_by_email email with
    | none => simp [get_otp, h, hfind ▸ h]
    | some user => simp [get_otp, h, hfind ▸ h]
  · intro user h; simp [get_otp, h]

/-- Witness for C10: `envW` and `envW2` differ only in the OTP value
they generate, yet the response bodies coincide and are the constant
success message. -/
theorem c10_response_independent_of_otp_witness :
    (get_otp envW "a@b.com").resp = (get_otp envW2 "a@b.com").resp ∧
    (get_otp envW "a@b.com").resp =
      .ok ⟨"OTP has been sent to your email", true⟩ :=
  ⟨(c10_response_independent_of_otp envW envW2 "a@b.com" rfl).1,
   (c10_response_independent_of_otp envW envW2 "a@b.com" rfl).2 ⟨1⟩ (by decide)⟩

end Talknaw
